import Mathlib

/-
Shallow embedding of the data-access layer of the Audioplane music-database
dashboard (`app.py`) and its full-CRUD companion (`app_full_crud.py`).

Tables are lists of typed rows; SQL dates are integer day numbers; the
SERIAL surrogate keys are modelled by per-table `next_*` counters carried in
the database state.  A store-level failure (connection loss, timeout,
constraint violation) is modelled by a `Fault` parameter threaded through
each operation, since any statement execution may raise.
-/

namespace MusicDB

/-- A row of `User_table` (columns `userID, userName`). -/
structure UserRow where
  userID : Nat
  userName : String
deriving Repr, DecidableEq

/-- A row of `Artist` (columns `artistID, artist_name, artist_location`,
the location being nullable). -/
structure ArtistRow where
  artistID : Nat
  artist_name : String
  artist_location : Option String
deriving Repr, DecidableEq

/-- A row of `Song` (columns `song_id, songName, dayReleased`). -/
structure SongRow where
  song_id : Nat
  songName : String
  dayReleased : Int
deriving Repr, DecidableEq

/-- A row of `Album` (columns `albumID, album_name, release_date`). -/
structure AlbumRow where
  albumID : Nat
  album_name : String
  release_date : Int
deriving Repr, DecidableEq

/-- A row of `Playlist` (columns `playlistID, playlist_name, num_songs`). -/
structure PlaylistRow where
  playlistID : Nat
  playlist_name : String
  num_songs : Int
deriving Repr, DecidableEq

/-- A row of `Produces` (Artist→Song association). -/
structure ProducesRow where
  artistID : Nat
  song_id : Nat
deriving Repr, DecidableEq

/-- A row of `Records` (Artist→Album association). -/
structure RecordsRow where
  artistID : Nat
  albumID : Nat
deriving Repr, DecidableEq

/-- A row of `Contains` (Album→Song association with a track number). -/
structure ContainsRow where
  albumID : Nat
  song_id : Nat
  track_number : Nat
deriving Repr, DecidableEq

/-- A row of `Saves` (Playlist→Song association with an ordinal position). -/
structure SavesRow where
  playlistID : Nat
  song_id : Nat
  position : Nat
deriving Repr, DecidableEq

/-- A row of `Creates` (User→Playlist association). -/
structure CreatesRow where
  userID : Nat
  playlistID : Nat
deriving Repr, DecidableEq

/-- A row of `Likes` (User→Song association with a timestamp). -/
structure LikesRow where
  userID : Nat
  song_id : Nat
  liked_date : Int
deriving Repr, DecidableEq

/-- The database state: one list per table, plus the SERIAL sequence
counters that assign surrogate keys on insert. -/
structure DB where
  user_table : List UserRow
  artist : List ArtistRow
  song : List SongRow
  album : List AlbumRow
  playlist : List PlaylistRow
  produces : List ProducesRow
  records : List RecordsRow
  containsTbl : List ContainsRow
  saves : List SavesRow
  creates : List CreatesRow
  likes : List LikesRow
  next_userID : Nat
  next_artistID : Nat
  next_song_id : Nat
  next_playlistID : Nat
deriving Repr, DecidableEq

/-- The database with every table empty and all sequences at 1. -/
def emptyDB : DB :=
  ⟨[], [], [], [], [], [], [], [], [], [], [], 1, 1, 1, 1⟩

/-- Outcome of handing a statement to the underlying store: either it
executes, or it raises an exception carrying a message. -/
inductive Fault where
  | ok
  | raise (msg : String)
deriving Repr, DecidableEq

namespace Crud

/-- `fetch_df` of `app_full_crud.py`: wraps execution in try/except; on an
exception it reports `"Query failed: {e}"` via `st.error` and returns an
empty DataFrame.  Result is the (table, reported diagnostic) pair. -/
def fetch_df {ρ : Type} (fault : Fault) (rows : List ρ) : List ρ × Option String :=
  match fault with
  | .ok => (rows, none)
  | .raise e => ([], some ("Query failed: " ++ e))

/-- `fetch_users`: `SELECT userID, userName FROM User_table ORDER BY userID`
— the whole table (the helper takes no row-count bound), sorted by key. -/
def fetch_users (db : DB) : List UserRow :=
  List.insertionSort (fun a b => a.userID ≤ b.userID) db.user_table

/-- `fetch_artists`: `SELECT artistID, artist_name, artist_location FROM
Artist ORDER BY artistID` — whole table, no row-count bound. -/
def fetch_artists (db : DB) : List ArtistRow :=
  List.insertionSort (fun a b => a.artistID ≤ b.artistID) db.artist

/-- `fetch_songs(limit)`: `SELECT song_id, songName, dayReleased FROM Song
ORDER BY song_id LIMIT :lim`. -/
def fetch_songs (db : DB) (lim : Nat) : List SongRow :=
  (List.insertionSort (fun a b => a.song_id ≤ b.song_id) db.song).take lim

/-- `fetch_playlists`: `SELECT playlistID, playlist_name, num_songs FROM
Playlist ORDER BY playlistID` — whole table, no row-count bound. -/
def fetch_playlists (db : DB) : List PlaylistRow :=
  List.insertionSort (fun a b => a.playlistID ≤ b.playlistID) db.playlist

/-- `with engine.begin() as conn:` — runs the statement in a transaction:
on success the block's effects are committed; on a raised store exception
the transaction is rolled back (state unchanged) and the exception is
re-raised to the caller.  `exec` yields the RETURNING rows and the new
state. -/
def engine_begin {ρ : Type} (fault : Fault) (db : DB) (exec : DB → List ρ × DB) :
    Except String (List ρ) × DB :=
  match fault with
  | .raise e => (.error e, db)
  | .ok => ((exec db).1, (exec db).2) |> fun r => (.ok r.1, r.2)

/-- `df.iloc[0].to_dict() if not df.empty else None`: the first RETURNING
row, or `none` when no row was affected (an exception passes through). -/
def first_or_none {ρ : Type} (r : Except String (List ρ) × DB) :
    Except String (Option ρ) × DB :=
  match r with
  | (.error e, db) => (.error e, db)
  | (.ok df, db) => (.ok df.head?, db)

/-- `insert_song(name, date_released)`: `INSERT INTO Song(songName,
dayReleased) VALUES (:n, :d) RETURNING song_id, songName, dayReleased`
inside `engine.begin()`; the store assigns the next sequence value as the
new key.  Returns the first returned row or `none`. -/
def insert_song (fault : Fault) (db : DB) (name : String) (date_released : Int) :
    Except String (Option SongRow) × DB :=
  first_or_none (engine_begin fault db (fun db =>
    ([⟨db.next_song_id, name, date_released⟩],
     { db with song := db.song ++ [⟨db.next_song_id, name, date_released⟩],
               next_song_id := db.next_song_id + 1 })))

/-- `update_song(sid, name, date_released)`: `UPDATE Song SET songName = :n,
dayReleased = :d WHERE song_id = :sid RETURNING song_id, songName,
dayReleased` inside `engine.begin()`. -/
def update_song (fault : Fault) (db : DB) (sid : Nat) (name : String) (date_released : Int) :
    Except String (Option SongRow) × DB :=
  first_or_none (engine_begin fault db (fun db =>
    ((db.song.filter (fun r => decide (r.song_id = sid))).map
       (fun r => { r with songName := name, dayReleased := date_released }),
     { db with song := db.song.map (fun r =>
         if r.song_id = sid then { r with songName := name, dayReleased := date_released }
         else r) })))

/-- `delete_song(sid)`: `DELETE FROM Song WHERE song_id = :sid RETURNING
song_id, songName, dayReleased` inside `engine.begin()`. -/
def delete_song (fault : Fault) (db : DB) (sid : Nat) :
    Except String (Option SongRow) × DB :=
  first_or_none (engine_begin fault db (fun db =>
    (db.song.filter (fun r => decide (r.song_id = sid)),
     { db with song := db.song.filter (fun r => decide (¬ r.song_id = sid)) })))

/-- `insert_artist(name, location)`: `INSERT INTO Artist(artist_name,
artist_location) VALUES (:n, :l) RETURNING artistID, artist_name,
artist_location` inside `engine.begin()`. -/
def insert_artist (fault : Fault) (db : DB) (name : String) (location : Option String) :
    Except String (Option ArtistRow) × DB :=
  first_or_none (engine_begin fault db (fun db =>
    ([⟨db.next_artistID, name, location⟩],
     { db with artist := db.artist ++ [⟨db.next_artistID, name, location⟩],
               next_artistID := db.next_artistID + 1 })))

/-- `update_artist(aid, name, location)`: `UPDATE Artist SET artist_name =
:n, artist_location = :l WHERE artistID = :aid RETURNING artistID,
artist_name, artist_location` inside `engine.begin()`. -/
def update_artist (fault : Fault) (db : DB) (aid : Nat) (name : String) (location : Option String) :
    Except String (Option ArtistRow) × DB :=
  first_or_none (engine_begin fault db (fun db =>
    ((db.artist.filter (fun r => decide (r.artistID = aid))).map
       (fun r => { r with artist_name := name, artist_location := location }),
     { db with artist := db.artist.map (fun r =>
         if r.artistID = aid then { r with artist_name := name, artist_location := location }
         else r) })))

/-- `delete_artist(aid)`: `DELETE FROM Artist WHERE artistID = :aid
RETURNING artistID, artist_name, artist_location` inside `engine.begin()`. -/
def delete_artist (fault : Fault) (db : DB) (aid : Nat) :
    Except String (Option ArtistRow) × DB :=
  first_or_none (engine_begin fault db (fun db =>
    (db.artist.filter (fun r => decide (r.artistID = aid)),
     { db with artist := db.artist.filter (fun r => decide (¬ r.artistID = aid)) })))

/-- `insert_user(username)`: `INSERT INTO User_table(userName) VALUES (:n)
RETURNING userID, userName` inside `engine.begin()`. -/
def insert_user (fault : Fault) (db : DB) (username : String) :
    Except String (Option UserRow) × DB :=
  first_or_none (engine_begin fault db (fun db =>
    ([⟨db.next_userID, username⟩],
     { db with user_table := db.user_table ++ [⟨db.next_userID, username⟩],
               next_userID := db.next_userID + 1 })))

/-- `update_user(uid, username)`: `UPDATE User_table SET userName = :n WHERE
userID = :uid RETURNING userID, userName` inside `engine.begin()`. -/
def update_user (fault : Fault) (db : DB) (uid : Nat) (username : String) :
    Except String (Option UserRow) × DB :=
  first_or_none (engine_begin fault db (fun db =>
    ((db.user_table.filter (fun r => decide (r.userID = uid))).map
       (fun r => { r with userName := username }),
     { db with user_table := db.user_table.map (fun r =>
         if r.userID = uid then { r with userName := username } else r) })))

/-- `delete_user(uid)`: `DELETE FROM User_table WHERE userID = :uid
RETURNING userID, userName` inside `engine.begin()`. -/
def delete_user (fault : Fault) (db : DB) (uid : Nat) :
    Except String (Option UserRow) × DB :=
  first_or_none (engine_begin fault db (fun db =>
    (db.user_table.filter (fun r => decide (r.userID = uid)),
     { db with user_table := db.user_table.filter (fun r => decide (¬ r.userID = uid)) })))

/-- `insert_playlist(name, num_songs)`: `INSERT INTO Playlist(playlist_name,
num_songs) VALUES (:n, :ns) RETURNING playlistID, playlist_name, num_songs`
inside `engine.begin()`. -/
def insert_playlist (fault : Fault) (db : DB) (name : String) (num_songs : Int) :
    Except String (Option PlaylistRow) × DB :=
  first_or_none (engine_begin fault db (fun db =>
    ([⟨db.next_playlistID, name, num_songs⟩],
     { db with playlist := db.playlist ++ [⟨db.next_playlistID, name, num_songs⟩],
               next_playlistID := db.next_playlistID + 1 })))

/-- `update_playlist(pid, name, num_songs)`: `UPDATE Playlist SET
playlist_name = :n, num_songs = :ns WHERE playlistID = :pid RETURNING
playlistID, playlist_name, num_songs` inside `engine.begin()`. -/
def update_playlist (fault : Fault) (db : DB) (pid : Nat) (name : String) (num_songs : Int) :
    Except String (Option PlaylistRow) × DB :=
  first_or_none (engine_begin fault db (fun db =>
    ((db.playlist.filter (fun r => decide (r.playlistID = pid))).map
       (fun r => { r with playlist_name := name, num_songs := num_songs }),
     { db with playlist := db.playlist.map (fun r =>
         if r.playlistID = pid then { r with playlist_name := name, num_songs := num_songs }
         else r) })))

/-- `delete_playlist(pid)`: `DELETE FROM Playlist WHERE playlistID = :pid
RETURNING playlistID, playlist_name, num_songs` inside `engine.begin()`. -/
def delete_playlist (fault : Fault) (db : DB) (pid : Nat) :
    Except String (Option PlaylistRow) × DB :=
  first_or_none (engine_begin fault db (fun db =>
    (db.playlist.filter (fun r => decide (r.playlistID = pid)),
     { db with playlist := db.playlist.filter (fun r => decide (¬ r.playlistID = pid)) })))

end Crud

namespace App

/-- `fetch_df` of `app.py`: identical to the CRUD one except the diagnostic
is reported as `"DB error: {e}"`. -/
def fetch_df {ρ : Type} (fault : Fault) (rows : List ρ) : List ρ × Option String :=
  match fault with
  | .ok => (rows, none)
  | .raise e => ([], some ("DB error: " ++ e))

/-- The inner-join rows of `Song s JOIN Produces p ON s.song_id = p.song_id
JOIN Artist a ON p.artistID = a.artistID`. -/
def song_artist_rows (db : DB) : List (SongRow × ProducesRow × ArtistRow) :=
  db.song.flatMap (fun s =>
    (db.produces.filter (fun p => decide (p.song_id = s.song_id))).flatMap (fun p =>
      (db.artist.filter (fun a => decide (a.artistID = p.artistID))).map (fun a =>
        (s, p, a))))

/-- Group keys of the Artist Song Counts query: the left join `Artist a LEFT
JOIN Produces p ON a.artistID = p.artistID` is grouped `BY a.artistID,
a.artist_name`, so the groups are the distinct (artistID, artist_name)
values occurring in `Artist`. -/
def asc_keys (db : DB) : List (Nat × String) :=
  (db.artist.map (fun a => (a.artistID, a.artist_name))).dedup

/-- `COUNT(p.song_id)` of one group of the Artist Song Counts query: a group
whose key occurs on `m` artist rows, each left-joined against `c` matching
`Produces` rows, holds `m*c` rows with a non-null `p.song_id` (when `c = 0`
every row of the group carries a null `p.song_id`, so the count is 0). -/
def asc_count (db : DB) (k : Nat × String) : Nat :=
  (db.artist.filter (fun a => decide (a.artistID = k.1) && decide (a.artist_name = k.2))).length
    * (db.produces.filter (fun p => decide (p.artistID = k.1))).length

/-- Artists tab, Artist Song Counts: `SELECT a.artist_name, COUNT(p.song_id)
as song_count FROM Artist a LEFT JOIN Produces p ON a.artistID = p.artistID
GROUP BY a.artistID, a.artist_name ORDER BY song_count DESC LIMIT :lim`. -/
def artist_song_counts (db : DB) (lim : Nat) : List (String × Nat) :=
  ((List.insertionSort (fun x y : (Nat × String) × Nat => y.2 ≤ x.2)
      ((asc_keys db).map (fun k => (k, asc_count db k)))).take lim).map
    (fun x => (x.1.2, x.2))

/-- Group keys of the Most Liked Songs query: the inner joins `Song s JOIN
Produces p JOIN Artist a` are grouped `BY s.song_id, s.songName,
a.artist_name`; a song with no `Produces` row (or whose producer is missing
from `Artist`) contributes no group at all. -/
def mls_keys (db : DB) : List (Nat × String × String) :=
  ((song_artist_rows db).map
    (fun r => (r.1.song_id, r.1.songName, r.2.2.artist_name))).dedup

/-- The number of `Likes` rows for a song. -/
def likes_of (db : DB) (sid : Nat) : Nat :=
  (db.likes.filter (fun l => decide (l.song_id = sid))).length

/-- `COUNT(l.userID)` of one group of the Most Liked Songs query: each of
the group's inner-join rows is left-joined against the song's likes, so the
non-null count is (group multiplicity) * (number of likes); it is 0 when the
song has no likes. -/
def mls_count (db : DB) (k : Nat × String × String) : Nat :=
  ((song_artist_rows db).filter (fun r =>
      decide ((r.1.song_id, r.1.songName, r.2.2.artist_name) = k))).length
    * likes_of db k.1

/-- Relationship view Most Liked Songs: `SELECT s.songName, a.artist_name,
COUNT(l.userID) as like_count FROM Song s JOIN Produces p ON s.song_id =
p.song_id JOIN Artist a ON p.artistID = a.artistID LEFT JOIN Likes l ON
s.song_id = l.song_id GROUP BY s.song_id, s.songName, a.artist_name ORDER BY
like_count DESC LIMIT :lim`. -/
def most_liked_songs (db : DB) (lim : Nat) : List (String × String × Nat) :=
  ((List.insertionSort (fun x y : (Nat × String × String) × Nat => y.2 ≤ x.2)
      ((mls_keys db).map (fun k => (k, mls_count db k)))).take lim).map
    (fun x => (x.1.2.1, x.1.2.2, x.2))

end App

/-- Startup configuration: the three required connectivity credentials read
from the environment (`os.getenv` yields `none` when the variable is
absent). -/
structure Config where
  pgdatabase : Option String
  pguser : Option String
  pgpassword : Option String
deriving Repr, DecidableEq

/-- Python truthiness of an optional environment string: `None` and the
empty string are falsy, so `all([PGDATABASE, PGUSER, PGPASSWORD])` holds iff
all three are present and non-empty. -/
def truthy : Option String → Bool
  | none => false
  | some s => decide (s ≠ "")

/-- What the script does at its credential check: either it halts (the
`st.stop()` branch, reached before the engine is ever created, so no
database operation runs), or it proceeds with the three credentials. -/
inductive StartupResult where
  | halted (msg : String)
  | proceed (pgdatabase pguser pgpassword : String)
deriving Repr, DecidableEq

/-- The diagnostic reported by the credential check of both apps. -/
def missing_creds_msg : String :=
  "Missing DB credentials. Please set PGDATABASE, PGUSER, and PGPASSWORD in your .env file."

/-- `if not all([PGDATABASE, PGUSER, PGPASSWORD]): st.error(...); st.stop()`
— both `app.py` (lines 27-29) and `app_full_crud.py` (lines 17-19) run this
check before creating the engine. -/
def startup (cfg : Config) : StartupResult :=
  if truthy cfg.pgdatabase && truthy cfg.pguser && truthy cfg.pgpassword then
    .proceed (cfg.pgdatabase.getD "") (cfg.pguser.getD "") (cfg.pgpassword.getD "")
  else
    .halted missing_creds_msg

/-- Models the external `st.number_input` widget: the user cannot submit a
value outside `[min_value, max_value]` (the frontend constrains the field),
and with no interaction the widget yields the default. -/
def number_input (min_value max_value default : Int) (user : Option Int) : Int :=
  match user with
  | none => default
  | some v => if v < min_value then min_value else if max_value < v then max_value else v

/-- The sidebar row-limit widget of both apps:
`st.number_input("Row limit", min_value=1, max_value=2000, value=200, step=50)`.
Every `:lim` bind parameter and the `fetch_songs` argument receive
`int(row_limit)`, i.e. exactly this value. -/
def row_limit (user : Option Int) : Int :=
  number_input 1 2000 200 user

/-- A value bound to a named SQL parameter. -/
inductive SqlValue where
  | int (i : Int)
  | str (s : String)
  | null
deriving Repr, DecidableEq

/-- A statement as handed to the store: the SQL text plus its bound
parameters. -/
abbrev Stmt := String × List (String × SqlValue)

namespace Crud

/-- The statement issued by `insert_song`: a literal SQL text, the two
caller-supplied values travelling only in the parameter map. -/
def insert_song_stmt (name : String) (d : Int) : Stmt :=
  ("INSERT INTO Song(songName, dayReleased) VALUES (:n, :d) RETURNING song_id, songName, dayReleased",
   [("n", .str name), ("d", .int d)])

/-- The statement issued by `update_song`. -/
def update_song_stmt (sid : Nat) (name : String) (d : Int) : Stmt :=
  ("UPDATE Song SET songName = :n, dayReleased = :d WHERE song_id = :sid RETURNING song_id, songName, dayReleased",
   [("sid", .int sid), ("n", .str name), ("d", .int d)])

/-- The statement issued by `delete_song`. -/
def delete_song_stmt (sid : Nat) : Stmt :=
  ("DELETE FROM Song WHERE song_id = :sid RETURNING song_id, songName, dayReleased",
   [("sid", .int sid)])

/-- The statement issued by `insert_artist`. -/
def insert_artist_stmt (name : String) (loc : Option String) : Stmt :=
  ("INSERT INTO Artist(artist_name, artist_location) VALUES (:n, :l) RETURNING artistID, artist_name, artist_location",
   [("n", .str name), ("l", loc.elim .null .str)])

/-- The statement issued by `update_artist`. -/
def update_artist_stmt (aid : Nat) (name : String) (loc : Option String) : Stmt :=
  ("UPDATE Artist SET artist_name = :n, artist_location = :l WHERE artistID = :aid RETURNING artistID, artist_name, artist_location",
   [("aid", .int aid), ("n", .str name), ("l", loc.elim .null .str)])

/-- The statement issued by `delete_artist`. -/
def delete_artist_stmt (aid : Nat) : Stmt :=
  ("DELETE FROM Artist WHERE artistID = :aid RETURNING artistID, artist_name, artist_location",
   [("aid", .int aid)])

/-- The statement issued by `insert_user`. -/
def insert_user_stmt (username : String) : Stmt :=
  ("INSERT INTO User_table(userName) VALUES (:n) RETURNING userID, userName",
   [("n", .str username)])

/-- The statement issued by `update_user`. -/
def update_user_stmt (uid : Nat) (username : String) : Stmt :=
  ("UPDATE User_table SET userName = :n WHERE userID = :uid RETURNING userID, userName",
   [("uid", .int uid), ("n", .str username)])

/-- The statement issued by `delete_user`. -/
def delete_user_stmt (uid : Nat) : Stmt :=
  ("DELETE FROM User_table WHERE userID = :uid RETURNING userID, userName",
   [("uid", .int uid)])

/-- The statement issued by `insert_playlist`. -/
def insert_playlist_stmt (name : String) (ns : Int) : Stmt :=
  ("INSERT INTO Playlist(playlist_name, num_songs) VALUES (:n, :ns) RETURNING playlistID, playlist_name, num_songs",
   [("n", .str name), ("ns", .int ns)])

/-- The statement issued by `update_playlist`. -/
def update_playlist_stmt (pid : Nat) (name : String) (ns : Int) : Stmt :=
  ("UPDATE Playlist SET playlist_name = :n, num_songs = :ns WHERE playlistID = :pid RETURNING playlistID, playlist_name, num_songs",
   [("pid", .int pid), ("n", .str name), ("ns", .int ns)])

/-- The statement issued by `delete_playlist`. -/
def delete_playlist_stmt (pid : Nat) : Stmt :=
  ("DELETE FROM Playlist WHERE playlistID = :pid RETURNING playlistID, playlist_name, num_songs",
   [("pid", .int pid)])

/-- The statement issued by `fetch_songs`. -/
def fetch_songs_stmt (lim : Int) : Stmt :=
  ("SELECT song_id, songName, dayReleased FROM Song ORDER BY song_id LIMIT :lim",
   [("lim", .int lim)])

end Crud

/-- The one piece of string interpolation into SQL in either source file:
the connection-setup listener runs
`cur.execute(f"SET search_path TO \x7bPGUSER\x7d, public")`,
interpolating the server-side `PGUSER` credential — never an end-user
value — into the directive. -/
def set_search_path_sql (pguser : String) : String :=
  "SET search_path TO " ++ pguser ++ ", public"

/-- Everything a user can type or pick across both apps in one run. -/
structure Inputs where
  row_limit_choice : Option Int
  selected_playlist : Int
  username : String
  song_name : String
  date_released : Int
  artist_name : String
  artist_location : Option String
  playlist_name : String
  playlist_num_songs : Int
  sel_uid : Nat
  sel_sid : Nat
  sel_aid : Nat
  sel_pid : Nat
deriving Repr, DecidableEq

/-- The SQL texts a run can send to the store, as a function of the
server-side `PGUSER` and of every user-supplied input.  Statement texts in
the source are string literals (user values travel in the bound-parameter
maps built alongside); multi-line literals are normalized to single-line
here.  Only the two connection-setup directives are built at runtime, and
only from `PGUSER`. -/
def issued_sql_texts (pguser : String) (inp : Inputs) : List String :=
  [ "SET statement_timeout TO 8000",
    set_search_path_sql pguser,
    "SELECT * FROM User_table ORDER BY userID LIMIT :lim",
    "SELECT * FROM Song ORDER BY song_id LIMIT :lim",
    "SELECT s.song_id, s.songName, s.dayReleased, a.artist_name FROM Song s JOIN Produces p ON s.song_id = p.song_id JOIN Artist a ON p.artistID = a.artistID ORDER BY s.song_id LIMIT :lim",
    "SELECT * FROM Album ORDER BY albumID LIMIT :lim",
    "SELECT al.albumID, al.album_name, al.release_date, ar.artist_name FROM Album al JOIN Records r ON al.albumID = r.albumID JOIN Artist ar ON r.artistID = ar.artistID ORDER BY al.release_date DESC LIMIT :lim",
    "SELECT * FROM Artist ORDER BY artistID LIMIT :lim",
    "SELECT a.artist_name, COUNT(p.song_id) as song_count FROM Artist a LEFT JOIN Produces p ON a.artistID = p.artistID GROUP BY a.artistID, a.artist_name ORDER BY song_count DESC LIMIT :lim",
    "SELECT * FROM Playlist ORDER BY playlistID LIMIT :lim",
    "SELECT p.playlistID, p.playlist_name, p.num_songs, u.userName as creator FROM Playlist p JOIN Creates c ON p.playlistID = c.playlistID JOIN User_table u ON c.userID = u.userID ORDER BY p.playlistID LIMIT :lim",
    "SELECT playlistID, playlist_name FROM Playlist ORDER BY playlistID",
    "SELECT s.songName, a.artist_name, sv.position FROM Saves sv JOIN Song s ON sv.song_id = s.song_id JOIN Produces p ON s.song_id = p.song_id JOIN Artist a ON p.artistID = a.artistID WHERE sv.playlistID = :pid ORDER BY sv.position",
    "SELECT u.userName, s.songName, a.artist_name, l.liked_date FROM Likes l JOIN User_table u ON l.userID = u.userID JOIN Song s ON l.song_id = s.song_id JOIN Produces p ON s.song_id = p.song_id JOIN Artist a ON p.artistID = a.artistID ORDER BY l.liked_date DESC LIMIT :lim",
    "SELECT al.album_name, s.songName, c.track_number, ar.artist_name FROM Contains c JOIN Album al ON c.albumID = al.albumID JOIN Song s ON c.song_id = s.song_id JOIN Records r ON al.albumID = r.albumID JOIN Artist ar ON r.artistID = ar.artistID ORDER BY al.album_name, c.track_number LIMIT :lim",
    "SELECT s.songName, a.artist_name, COUNT(l.userID) as like_count FROM Song s JOIN Produces p ON s.song_id = p.song_id JOIN Artist a ON p.artistID = a.artistID LEFT JOIN Likes l ON s.song_id = l.song_id GROUP BY s.song_id, s.songName, a.artist_name ORDER BY like_count DESC LIMIT :lim",
    "SELECT u.userName, COUNT(DISTINCT l.song_id) as songs_liked, COUNT(DISTINCT c.playlistID) as playlists_created FROM User_table u LEFT JOIN Likes l ON u.userID = l.userID LEFT JOIN Creates c ON u.userID = c.userID GROUP BY u.userID, u.userName ORDER BY songs_liked DESC LIMIT :lim",
    "SELECT u.userName, s.songName, a.artist_name FROM Likes l JOIN User_table u ON l.userID = u.userID JOIN Song s ON l.song_id = s.song_id JOIN Produces p ON s.song_id = p.song_id JOIN Artist a ON p.artistID = a.artistID LIMIT 500",
    "SELECT s.songName, COUNT(l.userID) AS like_count FROM Song s LEFT JOIN Likes l ON s.song_id = l.song_id GROUP BY s.songName ORDER BY like_count DESC LIMIT 5",
    "SELECT AVG(song_count) AS avg_songs FROM ( SELECT playlistID, COUNT(song_id) AS song_count FROM Saves GROUP BY playlistID ) t",
    "SELECT userID, userName FROM User_table ORDER BY userID",
    "SELECT artistID, artist_name, artist_location FROM Artist ORDER BY artistID",
    "SELECT albumID, album_name, release_date FROM Album ORDER BY albumID",
    "SELECT playlistID, playlist_name, num_songs FROM Playlist ORDER BY playlistID",
    (Crud.fetch_songs_stmt (row_limit inp.row_limit_choice)).1,
    (Crud.insert_song_stmt inp.song_name inp.date_released).1,
    (Crud.update_song_stmt inp.sel_sid inp.song_name inp.date_released).1,
    (Crud.delete_song_stmt inp.sel_sid).1,
    (Crud.insert_artist_stmt inp.artist_name inp.artist_location).1,
    (Crud.update_artist_stmt inp.sel_aid inp.artist_name inp.artist_location).1,
    (Crud.delete_artist_stmt inp.sel_aid).1,
    (Crud.insert_user_stmt inp.username).1,
    (Crud.update_user_stmt inp.sel_uid inp.username).1,
    (Crud.delete_user_stmt inp.sel_uid).1,
    (Crud.insert_playlist_stmt inp.playlist_name inp.playlist_num_songs).1,
    (Crud.update_playlist_stmt inp.sel_pid inp.playlist_name inp.playlist_num_songs).1,
    (Crud.delete_playlist_stmt inp.sel_pid).1 ]

/-- A small populated database: one user, one artist producing one song, one
album, one playlist; every sequence at 2. -/
def sampleDB : DB :=
  { user_table := [⟨1, "alice"⟩]
    artist := [⟨1, "art", none⟩]
    song := [⟨1, "s1", 0⟩]
    album := [⟨1, "al", 0⟩]
    playlist := [⟨1, "pl", 0⟩]
    produces := [⟨1, 1⟩]
    records := []
    containsTbl := []
    saves := []
    creates := []
    likes := []
    next_userID := 2
    next_artistID := 2
    next_song_id := 2
    next_playlistID := 2 }

/-- A database holding one artist and one song that no artist produces (no
`Produces` row) and that nobody likes. -/
def dbOrphan : DB :=
  { user_table := []
    artist := [⟨1, "a", none⟩]
    song := [⟨1, "orphan", 0⟩]
    album := []
    playlist := []
    produces := []
    records := []
    containsTbl := []
    saves := []
    creates := []
    likes := []
    next_userID := 1
    next_artistID := 2
    next_song_id := 2
    next_playlistID := 1 }

/-- The first row surviving a filter is the first row satisfying the
predicate. -/
theorem head_filter_eq_find (p : α → Bool) (l : List α) :
    (l.filter p).head? = l.find? p := by
  induction l with
  | nil => rfl
  | cons a t ih =>
    cases hpa : p a with
    | true => simp [List.filter_cons, hpa, List.find?_cons_of_pos _ hpa]
    | false => simp [List.filter_cons, List.find?_cons, hpa, ih]

/-- Over a table whose key column is duplicate-free, a filter whose
predicate pins the key of a member row keeps exactly that row. -/
theorem filter_eq_singleton_of_nodup_key (key : α → Nat) (l : List α)
    (hn : (l.map key).Nodup) (a : α) (ha : a ∈ l) (p : α → Bool)
    (hpa : p a = true) (hkey : ∀ x, p x = true → key x = key a) :
    l.filter p = [a] := by
  induction l with
  | nil => cases ha
  | cons b t ih =>
    rw [List.map_cons, List.nodup_cons] at hn
    rcases List.mem_cons.mp ha with rfl | hat
    · rw [List.filter_cons, if_pos hpa]
      have ht : t.filter p = [] := by
        rw [List.filter_eq_nil_iff]
        intro x hx hpx
        exact hn.1 (hkey x hpx ▸ List.mem_map_of_mem key hx)
      rw [ht]
    · have hpb : p b = false := by
        cases hpb : p b with
        | false => rfl
        | true =>
          exact absurd ((hkey b hpb).symm ▸ List.mem_map_of_mem key hat) hn.1
      rw [List.filter_cons, if_neg (by simp [hpb])]
      exact ih hn.2 hat

/-- Membership survives ORDER BY + LIMIT when the bound covers the whole
result set. -/
theorem mem_sort_take (r : α → α → Prop) [DecidableRel r] (l : List α) (x : α)
    (hx : x ∈ l) (lim : Nat) (h : l.length ≤ lim) :
    x ∈ (List.insertionSort r l).take lim := by
  rw [List.take_of_length_le (by rw [List.length_insertionSort]; exact h)]
  exact (List.mem_insertionSort r).mpr hx

/-- An UPDATE leaves every row whose key misses the WHERE clause unchanged,
position by position. -/
theorem getElem?_map_if (key : α → Nat) (kv : Nat) (f : α → α) (l : List α) (i : Nat)
    (h : ∀ x, l[i]? = some x → key x ≠ kv) :
    (l.map (fun r => if key r = kv then f r else r))[i]? = l[i]? := by
  rw [List.getElem?_map]
  cases hx : l[i]? with
  | none => rfl
  | some x => simp [if_neg (h x hx)]

/-- The first row surviving a filter-then-project pipeline is the projection
of the first matching row. -/
theorem head_filter_map (p : α → Bool) (f : α → β) (l : List α) :
    ((l.filter p).map f).head? = (l.find? p).map f := by
  rw [List.head?_map, head_filter_eq_find]

/-- A filter keeps no row iff no row matches. -/
theorem head_filter_none_iff (p : α → Bool) (l : List α) :
    (l.filter p).head? = none ↔ ∀ x ∈ l, ¬ p x = true := by
  rw [head_filter_eq_find, List.find?_eq_none]

/-- C8: if any required connectivity credential (database name, username or
password) is absent from the configuration at startup, the process halts at
the credential check — before any engine exists — and never proceeds with
partial configuration. -/
theorem c8_missing_credential_halts (cfg : Config)
    (h : cfg.pgdatabase = none ∨ cfg.pguser = none ∨ cfg.pgpassword = none) :
    startup cfg = .halted missing_creds_msg ∧
      ∀ d u p, startup cfg ≠ .proceed d u p := by
  have hfalse : (truthy cfg.pgdatabase && truthy cfg.pguser && truthy cfg.pgpassword) = false := by
    rcases h with h | h | h <;> simp [h, truthy]
  refine ⟨by simp [startup, hfalse], fun d u p hc => ?_⟩
  simp [startup, hfalse] at hc

/-- Witness for C8 at a concrete configuration missing `PGDATABASE`. -/
theorem c8_missing_credential_halts_witness :
    startup ⟨none, some "hawk", some "pw"⟩ = .halted missing_creds_msg ∧
      ∀ d u p, startup ⟨none, some "hawk", some "pw"⟩ ≠ .proceed d u p :=
  c8_missing_credential_halts ⟨none, some "hawk", some "pw"⟩ (Or.inl rfl)

/-- C9: whatever the user does to the sidebar widget, the row limit handed
to the limited list queries is an integer between 1 and 2000 inclusive
(default 200), never zero or negative. -/
theorem c9_row_limit_within_bounds (u : Option Int) :
    1 ≤ row_limit u ∧ row_limit u ≤ 2000 := by
  cases u <;> simp only [row_limit, number_input] <;> (try split_ifs) <;> omega

/-- C1 counterexample: a mutation helper (`insert_song`) hit by a store
exception propagates that exception to its caller instead of returning
`none` — there is no try/except around `engine.begin()` in any of the
mutation helpers. -/
theorem c1_mutation_propagates_counterexample :
    (Crud.insert_song (.raise "duplicate key") emptyDB "Test Song" 0).1
        = .error "duplicate key" ∧
      (Crud.insert_song (.raise "duplicate key") emptyDB "Test Song" 0).1
        ≠ .ok none := by
  refine ⟨rfl, fun h => ?_⟩
  simp [Crud.insert_song, Crud.engine_begin, Crud.first_or_none] at h

/-- C1 as amended: the read operations (`fetch_df` of both apps) catch any
store exception, report a diagnostic and return an empty table; but every
mutation helper runs bare inside `engine.begin()`, so a store exception
rolls the transaction back and then propagates to the caller as an error
rather than a `none` result. -/
theorem c1_reads_normalize_mutations_propagate (ρ : Type) (rows : List ρ)
    (e : String) (db : DB) (n uname pn : String) (d ns : Int)
    (loc : Option String) (sid aid uid pid : Nat) :
    App.fetch_df (.raise e) rows = ([], some ("DB error: " ++ e)) ∧
    Crud.fetch_df (.raise e) rows = ([], some ("Query failed: " ++ e)) ∧
    Crud.insert_song (.raise e) db n d = (.error e, db) ∧
    Crud.update_song (.raise e) db sid n d = (.error e, db) ∧
    Crud.delete_song (.raise e) db sid = (.error e, db) ∧
    Crud.insert_artist (.raise e) db n loc = (.error e, db) ∧
    Crud.update_artist (.raise e) db aid n loc = (.error e, db) ∧
    Crud.delete_artist (.raise e) db aid = (.error e, db) ∧
    Crud.insert_user (.raise e) db uname = (.error e, db) ∧
    Crud.update_user (.raise e) db uid uname = (.error e, db) ∧
    Crud.delete_user (.raise e) db uid = (.error e, db) ∧
    Crud.insert_playlist (.raise e) db pn ns = (.error e, db) ∧
    Crud.update_playlist (.raise e) db pid pn ns = (.error e, db) ∧
    Crud.delete_playlist (.raise e) db pid = (.error e, db) :=
  ⟨rfl, rfl, rfl, rfl, rfl, rfl, rfl, rfl, rfl, rfl, rfl, rfl, rfl, rfl⟩

/-- C7: the SQL texts a run sends to the store are the same for any two runs
that differ only in user-supplied input — every caller value travels in the
bound-parameter map, and the only interpolated value is the server-side
`PGUSER` in the `SET search_path` connection-setup directive. -/
theorem c7_sql_text_independent_of_inputs (pguser : String) (a b : Inputs) :
    issued_sql_texts pguser a = issued_sql_texts pguser b ∧
    set_search_path_sql pguser = "SET search_path TO " ++ pguser ++ ", public" ∧
    (Crud.insert_song_stmt a.song_name a.date_released).2
        = [("n", .str a.song_name), ("d", .int a.date_released)] ∧
    (Crud.update_user_stmt a.sel_uid a.username).2
        = [("uid", .int a.sel_uid), ("n", .str a.username)] :=
  ⟨rfl, rfl, rfl, rfl⟩

/-- C10: each mutation helper yields a single record — the first row of the
RETURNING result set, whose columns are exactly the RETURNING list (here the
full row type) — or `none` when no row was affected; inserts always return
the freshly keyed row. -/
theorem c10_mutations_first_row_or_none (db : DB) (n uname pn : String)
    (d ns : Int) (loc : Option String) (sid aid uid pid : Nat) :
    (Crud.insert_song .ok db n d).1 = .ok (some ⟨db.next_song_id, n, d⟩) ∧
    (Crud.insert_artist .ok db n loc).1 = .ok (some ⟨db.next_artistID, n, loc⟩) ∧
    (Crud.insert_user .ok db uname).1 = .ok (some ⟨db.next_userID, uname⟩) ∧
    (Crud.insert_playlist .ok db pn ns).1 = .ok (some ⟨db.next_playlistID, pn, ns⟩) ∧
    (Crud.update_song .ok db sid n d).1
      = .ok ((db.song.find? (fun r => decide (r.song_id = sid))).map
          (fun r => { r with songName := n, dayReleased := d })) ∧
    (Crud.update_artist .ok db aid n loc).1
      = .ok ((db.artist.find? (fun r => decide (r.artistID = aid))).map
          (fun r => { r with artist_name := n, artist_location := loc })) ∧
    (Crud.update_user .ok db uid uname).1
      = .ok ((db.user_table.find? (fun r => decide (r.userID = uid))).map
          (fun r => { r with userName := uname })) ∧
    (Crud.update_playlist .ok db pid pn ns).1
      = .ok ((db.playlist.find? (fun r => decide (r.playlistID = pid))).map
          (fun r => { r with playlist_name := pn, num_songs := ns })) ∧
    (Crud.delete_song .ok db sid).1
      = .ok (db.song.find? (fun r => decide (r.song_id = sid))) ∧
    (Crud.delete_artist .ok db aid).1
      = .ok (db.artist.find? (fun r => decide (r.artistID = aid))) ∧
    (Crud.delete_user .ok db uid).1
      = .ok (db.user_table.find? (fun r => decide (r.userID = uid))) ∧
    (Crud.delete_playlist .ok db pid).1
      = .ok (db.playlist.find? (fun r => decide (r.playlistID = pid))) ∧
    ((Crud.delete_song .ok db sid).1 = .ok none ↔ ∀ r ∈ db.song, r.song_id ≠ sid) ∧
    ((Crud.delete_artist .ok db aid).1 = .ok none ↔ ∀ r ∈ db.artist, r.artistID ≠ aid) ∧
    ((Crud.delete_user .ok db uid).1 = .ok none ↔ ∀ r ∈ db.user_table, r.userID ≠ uid) ∧
    ((Crud.delete_playlist .ok db pid).1 = .ok none ↔ ∀ r ∈ db.playlist, r.playlistID ≠ pid) ∧
    ((Crud.update_song .ok db sid n d).1 = .ok none ↔ ∀ r ∈ db.song, r.song_id ≠ sid) ∧
    ((Crud.update_artist .ok db aid n loc).1 = .ok none ↔ ∀ r ∈ db.artist, r.artistID ≠ aid) ∧
    ((Crud.update_user .ok db uid uname).1 = .ok none ↔ ∀ r ∈ db.user_table, r.userID ≠ uid) ∧
    ((Crud.update_playlist .ok db pid pn ns).1 = .ok none
      ↔ ∀ r ∈ db.playlist, r.playlistID ≠ pid) := by
  refine ⟨rfl, rfl, rfl, rfl, ?_, ?_, ?_, ?_, ?_, ?_, ?_, ?_, ?_, ?_, ?_, ?_, ?_, ?_, ?_, ?_⟩
  · exact congrArg Except.ok (head_filter_map _ _ _)
  · exact congrArg Except.ok (head_filter_map _ _ _)
  · exact congrArg Except.ok (head_filter_map _ _ _)
  · exact congrArg Except.ok (head_filter_map _ _ _)
  · exact congrArg Except.ok (head_filter_eq_find _ _)
  · exact congrArg Except.ok (head_filter_eq_find _ _)
  · exact congrArg Except.ok (head_filter_eq_find _ _)
  · exact congrArg Except.ok (head_filter_eq_find _ _)
  · rw [show (Crud.delete_song .ok db sid).1
        = .ok ((db.song.filter (fun r => decide (r.song_id = sid))).head?) from rfl]
    simp [head_filter_none_iff]
  · rw [show (Crud.delete_artist .ok db aid).1
        = .ok ((db.artist.filter (fun r => decide (r.artistID = aid))).head?) from rfl]
    simp [head_filter_none_iff]
  · rw [show (Crud.delete_user .ok db uid).1
        = .ok ((db.user_table.filter (fun r => decide (r.userID = uid))).head?) from rfl]
    simp [head_filter_none_iff]
  · rw [show (Crud.delete_playlist .ok db pid).1
        = .ok ((db.playlist.filter (fun r => decide (r.playlistID = pid))).head?) from rfl]
    simp [head_filter_none_iff]
  · rw [show (Crud.update_song .ok db sid n d).1
        = .ok (((db.song.filter (fun r => decide (r.song_id = sid))).map
            (fun r => { r with songName := n, dayReleased := d })).head?) from rfl]
    simp [head_filter_map, List.find?_eq_none]
  · rw [show (Crud.update_artist .ok db aid n loc).1
        = .ok (((db.artist.filter (fun r => decide (r.artistID = aid))).map
            (fun r => { r with artist_name := n, artist_location := loc })).head?) from rfl]
    simp [head_filter_map, List.find?_eq_none]
  · rw [show (Crud.update_user .ok db uid uname).1
        = .ok (((db.user_table.filter (fun r => decide (r.userID = uid))).map
            (fun r => { r with userName := uname })).head?) from rfl]
    simp [head_filter_map, List.find?_eq_none]
  · rw [show (Crud.update_playlist .ok db pid pn ns).1
        = .ok (((db.playlist.filter (fun r => decide (r.playlistID = pid))).map
            (fun r => { r with playlist_name := pn, num_songs := ns })).head?) from rfl]
    simp [head_filter_map, List.find?_eq_none]

/-- C3: every mutation runs as a single transaction — on success its effects
are committed, on a store failure the state is rolled back unchanged — and
deleting an id that does not exist returns `none` (no error) leaving the
table as it was; in particular a second delete of the same id returns no
row. -/
theorem c3_transactionality_and_absent_delete (db : DB) (e n uname pn : String)
    (d ns : Int) (loc : Option String) (sid aid uid pid sidA aidA uidA pidA : Nat)
    (hs : ∀ r ∈ db.song, r.song_id ≠ sidA)
    (ha : ∀ r ∈ db.artist, r.artistID ≠ aidA)
    (hu : ∀ r ∈ db.user_table, r.userID ≠ uidA)
    (hp : ∀ r ∈ db.playlist, r.playlistID ≠ pidA) :
    (Crud.insert_song (.raise e) db n d).2 = db ∧
    (Crud.update_song (.raise e) db sid n d).2 = db ∧
    (Crud.delete_song (.raise e) db sid).2 = db ∧
    (Crud.insert_artist (.raise e) db n loc).2 = db ∧
    (Crud.update_artist (.raise e) db aid n loc).2 = db ∧
    (Crud.delete_artist (.raise e) db aid).2 = db ∧
    (Crud.insert_user (.raise e) db uname).2 = db ∧
    (Crud.update_user (.raise e) db uid uname).2 = db ∧
    (Crud.delete_user (.raise e) db uid).2 = db ∧
    (Crud.insert_playlist (.raise e) db pn ns).2 = db ∧
    (Crud.update_playlist (.raise e) db pid pn ns).2 = db ∧
    (Crud.delete_playlist (.raise e) db pid).2 = db ∧
    (Crud.insert_song .ok db n d).2.song = db.song ++ [⟨db.next_song_id, n, d⟩] ∧
    Crud.delete_song .ok db sidA = (.ok none, db) ∧
    Crud.delete_artist .ok db aidA = (.ok none, db) ∧
    Crud.delete_user .ok db uidA = (.ok none, db) ∧
    Crud.delete_playlist .ok db pidA = (.ok none, db) ∧
    (Crud.delete_song .ok (Crud.delete_song .ok db sid).2 sid).1 = .ok none ∧
    (Crud.delete_artist .ok (Crud.delete_artist .ok db aid).2 aid).1 = .ok none ∧
    (Crud.delete_user .ok (Crud.delete_user .ok db uid).2 uid).1 = .ok none ∧
    (Crud.delete_playlist .ok (Crud.delete_playlist .ok db pid).2 pid).1 = .ok none := by
  refine ⟨rfl, rfl, rfl, rfl, rfl, rfl, rfl, rfl, rfl, rfl, rfl, rfl, rfl,
    ?_, ?_, ?_, ?_, ?_, ?_, ?_, ?_⟩
  · show (Except.ok ((db.song.filter (fun r => decide (r.song_id = sidA))).head?),
        { db with song := db.song.filter (fun r => decide (¬ r.song_id = sidA)) })
      = ((.ok none, db) : Except String (Option SongRow) × DB)
    rw [List.filter_eq_nil_iff.mpr (fun r hr => by simpa using hs r hr),
      List.filter_eq_self.mpr (fun r hr => by simpa using hs r hr)]
    rfl
  · show (Except.ok ((db.artist.filter (fun r => decide (r.artistID = aidA))).head?),
        { db with artist := db.artist.filter (fun r => decide (¬ r.artistID = aidA)) })
      = ((.ok none, db) : Except String (Option ArtistRow) × DB)
    rw [List.filter_eq_nil_iff.mpr (fun r hr => by simpa using ha r hr),
      List.filter_eq_self.mpr (fun r hr => by simpa using ha r hr)]
    rfl
  · show (Except.ok ((db.user_table.filter (fun r => decide (r.userID = uidA))).head?),
        { db with user_table := db.user_table.filter (fun r => decide (¬ r.userID = uidA)) })
      = ((.ok none, db) : Except String (Option UserRow) × DB)
    rw [List.filter_eq_nil_iff.mpr (fun r hr => by simpa using hu r hr),
      List.filter_eq_self.mpr (fun r hr => by simpa using hu r hr)]
    rfl
  · show (Except.ok ((db.playlist.filter (fun r => decide (r.playlistID = pidA))).head?),
        { db with playlist := db.playlist.filter (fun r => decide (¬ r.playlistID = pidA)) })
      = ((.ok none, db) : Except String (Option PlaylistRow) × DB)
    rw [List.filter_eq_nil_iff.mpr (fun r hr => by simpa using hp r hr),
      List.filter_eq_self.mpr (fun r hr => by simpa using hp r hr)]
    rfl
  · show Except.ok (((db.song.filter (fun r => decide (¬ r.song_id = sid))).filter
        (fun r => decide (r.song_id = sid))).head?) = .ok none
    rw [List.filter_filter, List.filter_eq_nil_iff.mpr (fun r _ => by simp)]
    rfl
  · show Except.ok (((db.artist.filter (fun r => decide (¬ r.artistID = aid))).filter
        (fun r => decide (r.artistID = aid))).head?) = .ok none
    rw [List.filter_filter, List.filter_eq_nil_iff.mpr (fun r _ => by simp)]
    rfl
  · show Except.ok (((db.user_table.filter (fun r => decide (¬ r.userID = uid))).filter
        (fun r => decide (r.userID = uid))).head?) = .ok none
    rw [List.filter_filter, List.filter_eq_nil_iff.mpr (fun r _ => by simp)]
    rfl
  · show Except.ok (((db.playlist.filter (fun r => decide (¬ r.playlistID = pid))).filter
        (fun r => decide (r.playlistID = pid))).head?) = .ok none
    rw [List.filter_filter, List.filter_eq_nil_iff.mpr (fun r _ => by simp)]
    rfl

/-- Witness for C3 at `sampleDB` with the absent ids instantiated to 99. -/
theorem c3_transactionality_and_absent_delete_witness :
    (Crud.insert_song (.raise "boom") sampleDB "x" 0).2 = sampleDB ∧
    (Crud.update_song (.raise "boom") sampleDB 1 "x" 0).2 = sampleDB ∧
    (Crud.delete_song (.raise "boom") sampleDB 1).2 = sampleDB ∧
    (Crud.insert_artist (.raise "boom") sampleDB "x" none).2 = sampleDB ∧
    (Crud.update_artist (.raise "boom") sampleDB 1 "x" none).2 = sampleDB ∧
    (Crud.delete_artist (.raise "boom") sampleDB 1).2 = sampleDB ∧
    (Crud.insert_user (.raise "boom") sampleDB "x").2 = sampleDB ∧
    (Crud.update_user (.raise "boom") sampleDB 1 "x").2 = sampleDB ∧
    (Crud.delete_user (.raise "boom") sampleDB 1).2 = sampleDB ∧
    (Crud.insert_playlist (.raise "boom") sampleDB "x" 0).2 = sampleDB ∧
    (Crud.update_playlist (.raise "boom") sampleDB 1 "x" 0).2 = sampleDB ∧
    (Crud.delete_playlist (.raise "boom") sampleDB 1).2 = sampleDB ∧
    (Crud.insert_song .ok sampleDB "x" 0).2.song
      = sampleDB.song ++ [⟨sampleDB.next_song_id, "x", 0⟩] ∧
    Crud.delete_song .ok sampleDB 99 = (.ok none, sampleDB) ∧
    Crud.delete_artist .ok sampleDB 99 = (.ok none, sampleDB) ∧
    Crud.delete_user .ok sampleDB 99 = (.ok none, sampleDB) ∧
    Crud.delete_playlist .ok sampleDB 99 = (.ok none, sampleDB) ∧
    (Crud.delete_song .ok (Crud.delete_song .ok sampleDB 1).2 1).1 = .ok none ∧
    (Crud.delete_artist .ok (Crud.delete_artist .ok sampleDB 1).2 1).1 = .ok none ∧
    (Crud.delete_user .ok (Crud.delete_user .ok sampleDB 1).2 1).1 = .ok none ∧
    (Crud.delete_playlist .ok (Crud.delete_playlist .ok sampleDB 1).2 1).1 = .ok none :=
  c3_transactionality_and_absent_delete sampleDB "boom" "x" "x" "x" 0 0 none
    1 1 1 1 99 99 99 99 (by decide) (by decide) (by decide) (by decide)

/-- C4: for an existing id, `update` changes only the targeted row — every
position whose row misses the WHERE key is untouched and every other table
of the state is unchanged — returns the updated row's projection, and keeps
the entity table's row count. -/
theorem c4_update_targets_one_row (db : DB) (n uname pn : String) (d ns : Int)
    (loc : Option String) (sid aid uid pid : Nat)
    (rs : SongRow) (ra : ArtistRow) (ru : UserRow) (rp : PlaylistRow)
    (hnodupS : (db.song.map (fun r => r.song_id)).Nodup)
    (hrs : rs ∈ db.song) (hrs2 : rs.song_id = sid)
    (hnodupA : (db.artist.map (fun r => r.artistID)).Nodup)
    (hra : ra ∈ db.artist) (hra2 : ra.artistID = aid)
    (hnodupU : (db.user_table.map (fun r => r.userID)).Nodup)
    (hru : ru ∈ db.user_table) (hru2 : ru.userID = uid)
    (hnodupP : (db.playlist.map (fun r => r.playlistID)).Nodup)
    (hrp : rp ∈ db.playlist) (hrp2 : rp.playlistID = pid) :
    (Crud.update_song .ok db sid n d).1 = .ok (some ⟨sid, n, d⟩) ∧
    (Crud.update_song .ok db sid n d).2.song.length = db.song.length ∧
    (∀ i : Nat, (∀ x, db.song[i]? = some x → x.song_id ≠ sid) →
      (Crud.update_song .ok db sid n d).2.song[i]? = db.song[i]?) ∧
    (Crud.update_song .ok db sid n d).2
      = { db with song := (Crud.update_song .ok db sid n d).2.song } ∧
    (Crud.update_artist .ok db aid n loc).1 = .ok (some ⟨aid, n, loc⟩) ∧
    (Crud.update_artist .ok db aid n loc).2.artist.length = db.artist.length ∧
    (∀ i : Nat, (∀ x, db.artist[i]? = some x → x.artistID ≠ aid) →
      (Crud.update_artist .ok db aid n loc).2.artist[i]? = db.artist[i]?) ∧
    (Crud.update_artist .ok db aid n loc).2
      = { db with artist := (Crud.update_artist .ok db aid n loc).2.artist } ∧
    (Crud.update_user .ok db uid uname).1 = .ok (some ⟨uid, uname⟩) ∧
    (Crud.update_user .ok db uid uname).2.user_table.length = db.user_table.length ∧
    (∀ i : Nat, (∀ x, db.user_table[i]? = some x → x.userID ≠ uid) →
      (Crud.update_user .ok db uid uname).2.user_table[i]? = db.user_table[i]?) ∧
    (Crud.update_user .ok db uid uname).2
      = { db with user_table := (Crud.update_user .ok db uid uname).2.user_table } ∧
    (Crud.update_playlist .ok db pid pn ns).1 = .ok (some ⟨pid, pn, ns⟩) ∧
    (Crud.update_playlist .ok db pid pn ns).2.playlist.length = db.playlist.length ∧
    (∀ i : Nat, (∀ x, db.playlist[i]? = some x → x.playlistID ≠ pid) →
      (Crud.update_playlist .ok db pid pn ns).2.playlist[i]? = db.playlist[i]?) ∧
    (Crud.update_playlist .ok db pid pn ns).2
      = { db with playlist := (Crud.update_playlist .ok db pid pn ns).2.playlist } := by
  subst hrs2 hra2 hru2 hrp2
  have hS : db.song.filter (fun x => decide (x.song_id = rs.song_id)) = [rs] :=
    filter_eq_singleton_of_nodup_key (fun r => r.song_id) db.song hnodupS rs hrs _
      (by simp) (fun x hx => by simpa using hx)
  have hA : db.artist.filter (fun x => decide (x.artistID = ra.artistID)) = [ra] :=
    filter_eq_singleton_of_nodup_key (fun r => r.artistID) db.artist hnodupA ra hra _
      (by simp) (fun x hx => by simpa using hx)
  have hU : db.user_table.filter (fun x => decide (x.userID = ru.userID)) = [ru] :=
    filter_eq_singleton_of_nodup_key (fun r => r.userID) db.user_table hnodupU ru hru _
      (by simp) (fun x hx => by simpa using hx)
  have hP : db.playlist.filter (fun x => decide (x.playlistID = rp.playlistID)) = [rp] :=
    filter_eq_singleton_of_nodup_key (fun r => r.playlistID) db.playlist hnodupP rp hrp _
      (by simp) (fun x hx => by simpa using hx)
  refine ⟨?_, by simp [Crud.update_song, Crud.engine_begin, Crud.first_or_none],
    fun i hi => getElem?_map_if (fun r : SongRow => r.song_id) rs.song_id
      (fun r : SongRow => { r with songName := n, dayReleased := d }) db.song i hi, rfl,
    ?_, by simp [Crud.update_artist, Crud.engine_begin, Crud.first_or_none],
    fun i hi => getElem?_map_if (fun r : ArtistRow => r.artistID) ra.artistID
      (fun r : ArtistRow => { r with artist_name := n, artist_location := loc }) db.artist i hi, rfl,
    ?_, by simp [Crud.update_user, Crud.engine_begin, Crud.first_or_none],
    fun i hi => getElem?_map_if (fun r : UserRow => r.userID) ru.userID
      (fun r : UserRow => { r with userName := uname }) db.user_table i hi, rfl,
    ?_, by simp [Crud.update_playlist, Crud.engine_begin, Crud.first_or_none],
    fun i hi => getElem?_map_if (fun r : PlaylistRow => r.playlistID) rp.playlistID
      (fun r : PlaylistRow => { r with playlist_name := pn, num_songs := ns }) db.playlist i hi, rfl⟩
  · show Except.ok (((db.song.filter (fun x => decide (x.song_id = rs.song_id))).map
        (fun r => ({ r with songName := n, dayReleased := d } : SongRow))).head?)
      = (Except.ok (some ⟨rs.song_id, n, d⟩) : Except String (Option SongRow))
    rw [hS]
    rfl
  · show Except.ok (((db.artist.filter (fun x => decide (x.artistID = ra.artistID))).map
        (fun r => ({ r with artist_name := n, artist_location := loc } : ArtistRow))).head?)
      = (Except.ok (some ⟨ra.artistID, n, loc⟩) : Except String (Option ArtistRow))
    rw [hA]
    rfl
  · show Except.ok (((db.user_table.filter (fun x => decide (x.userID = ru.userID))).map
        (fun r => ({ r with userName := uname } : UserRow))).head?)
      = (Except.ok (some ⟨ru.userID, uname⟩) : Except String (Option UserRow))
    rw [hU]
    rfl
  · show Except.ok (((db.playlist.filter (fun x => decide (x.playlistID = rp.playlistID))).map
        (fun r => ({ r with playlist_name := pn, num_songs := ns } : PlaylistRow))).head?)
      = (Except.ok (some ⟨rp.playlistID, pn, ns⟩) : Except String (Option PlaylistRow))
    rw [hP]
    rfl

/-- Witness for C4 at `sampleDB`, updating the single row of each entity. -/
theorem c4_update_targets_one_row_witness :
    (Crud.update_song .ok sampleDB 1 "nn" 7).1 = .ok (some ⟨1, "nn", 7⟩) ∧
    (Crud.update_song .ok sampleDB 1 "nn" 7).2.song.length = sampleDB.song.length ∧
    (∀ i : Nat, (∀ x, sampleDB.song[i]? = some x → x.song_id ≠ 1) →
      (Crud.update_song .ok sampleDB 1 "nn" 7).2.song[i]? = sampleDB.song[i]?) ∧
    (Crud.update_song .ok sampleDB 1 "nn" 7).2
      = { sampleDB with song := (Crud.update_song .ok sampleDB 1 "nn" 7).2.song } ∧
    (Crud.update_artist .ok sampleDB 1 "nn" (some "loc")).1 = .ok (some ⟨1, "nn", some "loc"⟩) ∧
    (Crud.update_artist .ok sampleDB 1 "nn" (some "loc")).2.artist.length = sampleDB.artist.length ∧
    (∀ i : Nat, (∀ x, sampleDB.artist[i]? = some x → x.artistID ≠ 1) →
      (Crud.update_artist .ok sampleDB 1 "nn" (some "loc")).2.artist[i]? = sampleDB.artist[i]?) ∧
    (Crud.update_artist .ok sampleDB 1 "nn" (some "loc")).2
      = { sampleDB with artist := (Crud.update_artist .ok sampleDB 1 "nn" (some "loc")).2.artist } ∧
    (Crud.update_user .ok sampleDB 1 "uu").1 = .ok (some ⟨1, "uu"⟩) ∧
    (Crud.update_user .ok sampleDB 1 "uu").2.user_table.length = sampleDB.user_table.length ∧
    (∀ i : Nat, (∀ x, sampleDB.user_table[i]? = some x → x.userID ≠ 1) →
      (Crud.update_user .ok sampleDB 1 "uu").2.user_table[i]? = sampleDB.user_table[i]?) ∧
    (Crud.update_user .ok sampleDB 1 "uu").2
      = { sampleDB with user_table := (Crud.update_user .ok sampleDB 1 "uu").2.user_table } ∧
    (Crud.update_playlist .ok sampleDB 1 "pp" 3).1 = .ok (some ⟨1, "pp", 3⟩) ∧
    (Crud.update_playlist .ok sampleDB 1 "pp" 3).2.playlist.length = sampleDB.playlist.length ∧
    (∀ i : Nat, (∀ x, sampleDB.playlist[i]? = some x → x.playlistID ≠ 1) →
      (Crud.update_playlist .ok sampleDB 1 "pp" 3).2.playlist[i]? = sampleDB.playlist[i]?) ∧
    (Crud.update_playlist .ok sampleDB 1 "pp" 3).2
      = { sampleDB with playlist := (Crud.update_playlist .ok sampleDB 1 "pp" 3).2.playlist } :=
  c4_update_targets_one_row sampleDB "nn" "uu" "pp" 7 3 (some "loc") 1 1 1 1
    ⟨1, "s1", 0⟩ ⟨1, "art", none⟩ ⟨1, "alice"⟩ ⟨1, "pl", 0⟩
    (by decide) (by decide) (by decide) (by decide) (by decide) (by decide)
    (by decide) (by decide) (by decide) (by decide) (by decide) (by decide)

/-- C5: for every entity, inserting returns a record carrying the
store-assigned next sequence value as its identifier — distinct from every
existing id while the sequence dominates the table, as SERIAL keys
guarantee — and a subsequent list of that entity (with a limit covering the
grown Song table for `fetch_songs`; the other list helpers are unbounded)
contains the inserted row. -/
theorem c5_insert_then_list_contains (db : DB) (sn an uname pn : String)
    (d ns : Int) (loc : Option String) (lim : Nat)
    (hfreshS : ∀ r ∈ db.song, r.song_id < db.next_song_id)
    (hfreshA : ∀ r ∈ db.artist, r.artistID < db.next_artistID)
    (hfreshU : ∀ r ∈ db.user_table, r.userID < db.next_userID)
    (hfreshP : ∀ r ∈ db.playlist, r.playlistID < db.next_playlistID)
    (hlim : db.song.length + 1 ≤ lim) :
    (Crud.insert_song .ok db sn d).1 = .ok (some ⟨db.next_song_id, sn, d⟩) ∧
    (∀ r ∈ db.song, r.song_id ≠ db.next_song_id) ∧
    (⟨db.next_song_id, sn, d⟩ : SongRow)
      ∈ Crud.fetch_songs (Crud.insert_song .ok db sn d).2 lim ∧
    (Crud.insert_artist .ok db an loc).1 = .ok (some ⟨db.next_artistID, an, loc⟩) ∧
    (∀ r ∈ db.artist, r.artistID ≠ db.next_artistID) ∧
    (⟨db.next_artistID, an, loc⟩ : ArtistRow)
      ∈ Crud.fetch_artists (Crud.insert_artist .ok db an loc).2 ∧
    (Crud.insert_user .ok db uname).1 = .ok (some ⟨db.next_userID, uname⟩) ∧
    (∀ r ∈ db.user_table, r.userID ≠ db.next_userID) ∧
    (⟨db.next_userID, uname⟩ : UserRow)
      ∈ Crud.fetch_users (Crud.insert_user .ok db uname).2 ∧
    (Crud.insert_playlist .ok db pn ns).1 = .ok (some ⟨db.next_playlistID, pn, ns⟩) ∧
    (∀ r ∈ db.playlist, r.playlistID ≠ db.next_playlistID) ∧
    (⟨db.next_playlistID, pn, ns⟩ : PlaylistRow)
      ∈ Crud.fetch_playlists (Crud.insert_playlist .ok db pn ns).2 := by
  refine ⟨rfl, fun r hr => Nat.ne_of_lt (hfreshS r hr), ?_,
    rfl, fun r hr => Nat.ne_of_lt (hfreshA r hr), ?_,
    rfl, fun r hr => Nat.ne_of_lt (hfreshU r hr), ?_,
    rfl, fun r hr => Nat.ne_of_lt (hfreshP r hr), ?_⟩
  · show (⟨db.next_song_id, sn, d⟩ : SongRow) ∈
      (List.insertionSort (fun a b => a.song_id ≤ b.song_id)
        (db.song ++ [⟨db.next_song_id, sn, d⟩])).take lim
    exact mem_sort_take _ _ _ (List.mem_append_right _ (by simp)) lim
      (by simpa using hlim)
  · show (⟨db.next_artistID, an, loc⟩ : ArtistRow) ∈
      List.insertionSort (fun a b => a.artistID ≤ b.artistID)
        (db.artist ++ [⟨db.next_artistID, an, loc⟩])
    exact (List.mem_insertionSort _).mpr (List.mem_append_right _ (by simp))
  · show (⟨db.next_userID, uname⟩ : UserRow) ∈
      List.insertionSort (fun a b => a.userID ≤ b.userID)
        (db.user_table ++ [⟨db.next_userID, uname⟩])
    exact (List.mem_insertionSort _).mpr (List.mem_append_right _ (by simp))
  · show (⟨db.next_playlistID, pn, ns⟩ : PlaylistRow) ∈
      List.insertionSort (fun a b => a.playlistID ≤ b.playlistID)
        (db.playlist ++ [⟨db.next_playlistID, pn, ns⟩])
    exact (List.mem_insertionSort _).mpr (List.mem_append_right _ (by simp))

/-- Witness for C5 at `sampleDB` with limit 5, using the Artist scenario
values of the spec. -/
theorem c5_insert_then_list_contains_witness :
    (Crud.insert_song .ok sampleDB "Test Song" 19723).1
      = .ok (some ⟨sampleDB.next_song_id, "Test Song", 19723⟩) ∧
    (∀ r ∈ sampleDB.song, r.song_id ≠ sampleDB.next_song_id) ∧
    (⟨sampleDB.next_song_id, "Test Song", 19723⟩ : SongRow)
      ∈ Crud.fetch_songs (Crud.insert_song .ok sampleDB "Test Song" 19723).2 5 ∧
    (Crud.insert_artist .ok sampleDB "Test Artist" (some "Testville")).1
      = .ok (some ⟨sampleDB.next_artistID, "Test Artist", some "Testville"⟩) ∧
    (∀ r ∈ sampleDB.artist, r.artistID ≠ sampleDB.next_artistID) ∧
    (⟨sampleDB.next_artistID, "Test Artist", some "Testville"⟩ : ArtistRow)
      ∈ Crud.fetch_artists
          (Crud.insert_artist .ok sampleDB "Test Artist" (some "Testville")).2 ∧
    (Crud.insert_user .ok sampleDB "nh").1 = .ok (some ⟨sampleDB.next_userID, "nh"⟩) ∧
    (∀ r ∈ sampleDB.user_table, r.userID ≠ sampleDB.next_userID) ∧
    (⟨sampleDB.next_userID, "nh"⟩ : UserRow)
      ∈ Crud.fetch_users (Crud.insert_user .ok sampleDB "nh").2 ∧
    (Crud.insert_playlist .ok sampleDB "pl2" 0).1
      = .ok (some ⟨sampleDB.next_playlistID, "pl2", 0⟩) ∧
    (∀ r ∈ sampleDB.playlist, r.playlistID ≠ sampleDB.next_playlistID) ∧
    (⟨sampleDB.next_playlistID, "pl2", 0⟩ : PlaylistRow)
      ∈ Crud.fetch_playlists (Crud.insert_playlist .ok sampleDB "pl2" 0).2 :=
  c5_insert_then_list_contains sampleDB "Test Song" "Test Artist" "nh" "pl2" 19723 0
    (some "Testville") 5 (by decide) (by decide) (by decide) (by decide) (by decide)

/-- A song produced by an artist present in the Artist table yields an
inner-join row of the Most Liked Songs query. -/
theorem mem_song_artist_rows {db : DB} {s : SongRow} {p : ProducesRow} {ar : ArtistRow}
    (hs : s ∈ db.song) (hp : p ∈ db.produces) (hps : p.song_id = s.song_id)
    (har : ar ∈ db.artist) (hza : ar.artistID = p.artistID) :
    (s, p, ar) ∈ App.song_artist_rows db := by
  unfold App.song_artist_rows
  refine List.mem_flatMap.mpr ⟨s, hs, ?_⟩
  refine List.mem_flatMap.mpr ⟨p, List.mem_filter.mpr ⟨hp, by simp [hps]⟩, ?_⟩
  exact List.mem_map.mpr ⟨ar, List.mem_filter.mpr ⟨har, by simp [hza]⟩, rfl⟩

/-- C2 counterexample: in a database holding a song that no artist produces,
the Most Liked Songs view is empty — the song is dropped by the inner joins
with `Produces`/`Artist`, not kept with a zero like-count — even with a
limit (10) far above every table size; the artist-side half of the claim
does hold there (the artist with zero songs shows song_count 0). -/
theorem c2_unproduced_song_dropped_counterexample :
    dbOrphan.song = [⟨1, "orphan", 0⟩] ∧
    App.most_liked_songs dbOrphan 10 = [] ∧
    App.artist_song_counts dbOrphan 10 = [("a", 0)] := by
  refine ⟨rfl, by decide, by decide⟩

/-- C2 as amended: with duplicate-free artist keys and a limit covering the
whole result set, the artist-song-counts view contains every artist with its
produced-song count (0 when it produced nothing); the most-liked-songs view
contains every song that is produced by an artist present in the Artist
table (with like_count 0 when the song has no likes), but only such songs —
a song with no producing artist is dropped by the inner joins. -/
theorem c2_left_join_views_keep_parents (db : DB) (lim : Nat)
    (hA : (db.artist.map (fun a => a.artistID)).Nodup)
    (h1 : (App.asc_keys db).length ≤ lim)
    (h2 : (App.mls_keys db).length ≤ lim) :
    (∀ a ∈ db.artist,
      (a.artist_name,
        (db.produces.filter (fun p => decide (p.artistID = a.artistID))).length)
          ∈ App.artist_song_counts db lim) ∧
    (∀ s ∈ db.song, ∀ p ∈ db.produces, p.song_id = s.song_id →
      ∀ ar ∈ db.artist, ar.artistID = p.artistID →
        ∃ nl, (s.songName, ar.artist_name, nl) ∈ App.most_liked_songs db lim ∧
          (App.likes_of db s.song_id = 0 → nl = 0)) ∧
    (∀ x ∈ App.most_liked_songs db lim,
      ∃ r ∈ App.song_artist_rows db, x.1 = r.1.songName) := by
  refine ⟨?_, ?_, ?_⟩
  · intro a ha
    have hk : (a.artistID, a.artist_name) ∈ App.asc_keys db :=
      List.mem_dedup.mpr (List.mem_map_of_mem _ ha)
    have hcnt : App.asc_count db (a.artistID, a.artist_name)
        = (db.produces.filter (fun p => decide (p.artistID = a.artistID))).length := by
      unfold App.asc_count
      rw [filter_eq_singleton_of_nodup_key (fun r => r.artistID) db.artist hA a ha _
        (by simp) (fun x hx => by simp at hx; exact hx.1)]
      simp
    have hmem : ((a.artistID, a.artist_name), App.asc_count db (a.artistID, a.artist_name))
        ∈ ((App.asc_keys db).map (fun k => (k, App.asc_count db k))) :=
      List.mem_map_of_mem _ hk
    have htake := mem_sort_take
      (fun x y : (Nat × String) × Nat => y.2 ≤ x.2) _ _ hmem lim (by simpa using h1)
    have := List.mem_map_of_mem (fun x : (Nat × String) × Nat => (x.1.2, x.2)) htake
    rw [hcnt] at this
    exact this
  · intro s hs p hp hps ar har hza
    have hr : (s, p, ar) ∈ App.song_artist_rows db :=
      mem_song_artist_rows hs hp hps har hza
    have hk : (s.song_id, s.songName, ar.artist_name) ∈ App.mls_keys db :=
      List.mem_dedup.mpr (List.mem_map.mpr ⟨(s, p, ar), hr, rfl⟩)
    refine ⟨App.mls_count db (s.song_id, s.songName, ar.artist_name), ?_, ?_⟩
    · have hmem : ((s.song_id, s.songName, ar.artist_name),
          App.mls_count db (s.song_id, s.songName, ar.artist_name))
          ∈ ((App.mls_keys db).map (fun k => (k, App.mls_count db k))) :=
        List.mem_map_of_mem _ hk
      have htake := mem_sort_take
        (fun x y : (Nat × String × String) × Nat => y.2 ≤ x.2) _ _ hmem lim
        (by simpa using h2)
      exact List.mem_map_of_mem
        (fun x : (Nat × String × String) × Nat => (x.1.2.1, x.1.2.2, x.2)) htake
    · intro h0
      simp [App.mls_count, h0]
  · intro x hx
    obtain ⟨y, hy, hxy⟩ := List.mem_map.mp hx
    have hy3 : y ∈ ((App.mls_keys db).map (fun k => (k, App.mls_count db k))) :=
      (List.mem_insertionSort _).mp ((List.take_sublist _ _).subset hy)
    obtain ⟨k, hk, hky⟩ := List.mem_map.mp hy3
    obtain ⟨r, hrr, hrk⟩ := List.mem_map.mp (List.mem_dedup.mp hk)
    refine ⟨r, hrr, ?_⟩
    rw [← hxy, ← hky, ← hrk]

/-- Witness for C2 as amended, at `sampleDB` with limit 5. -/
theorem c2_left_join_views_keep_parents_witness :
    (∀ a ∈ sampleDB.artist,
      (a.artist_name,
        (sampleDB.produces.filter (fun p => decide (p.artistID = a.artistID))).length)
          ∈ App.artist_song_counts sampleDB 5) ∧
    (∀ s ∈ sampleDB.song, ∀ p ∈ sampleDB.produces, p.song_id = s.song_id →
      ∀ ar ∈ sampleDB.artist, ar.artistID = p.artistID →
        ∃ nl, (s.songName, ar.artist_name, nl) ∈ App.most_liked_songs sampleDB 5 ∧
          (App.likes_of sampleDB s.song_id = 0 → nl = 0)) ∧
    (∀ x ∈ App.most_liked_songs sampleDB 5,
      ∃ r ∈ App.song_artist_rows sampleDB, x.1 = r.1.songName) :=
  c2_left_join_views_keep_parents sampleDB 5 (by decide) (by decide) (by decide)

end MusicDB
